import Mathlib

/-!
Verification development for the client-side asynchronous orchestration
subsystem of the Financial Statement Analysis application.

The development shallowly embeds:
- the data model of `client/src/types/index.ts`;
- the Transport Client of `client/src/services/api.ts` (each operation is a
  pure function of the single HTTP response it consumes, which also encodes
  that the layer performs no retry and no caching);
- the Selection/Fetch Coordinator of `client/src/context/AppContext.tsx`,
  modelled as an event machine: each `async` operation is split into the
  atomic blocks delimited by its `await` suspension points, and a scheduler
  interleaves the pending resumptions in any order (the platform gives no
  ordering guarantee between the settlements of distinct requests);
- the upload progress monitor of `client/src/components/FileUpload.tsx`
  (the `onmessage` handler and the polling fallback started by `onerror`,
  the latter on a discrete one-second timeline).

Remote outcomes are supplied by explicit oracle environments, so every
definition is executable and every run can be evaluated on concrete inputs.
-/

namespace FSA

/-! ## Data model (client/src/types/index.ts) -/

/-- Company reference data: `interface Company` of types/index.ts. -/
structure Company where
  id : String
  name : String
deriving DecidableEq, Repr

/-- Income statement record; all extracted numeric fields are optional
(absence means not extracted). TypeScript `number` is modelled as `Int`;
no claim computes with fractional values. -/
structure IncomeStatement where
  company_id : String
  year : Int
  currency : String
  revenue : Option Int := none
  cost_of_goods_sold : Option Int := none
  gross_profit : Option Int := none
  operating_expenses : Option Int := none
  operating_income : Option Int := none
  interest_expense : Option Int := none
  pretax_income : Option Int := none
  income_tax : Option Int := none
  net_income : Option Int := none
  eps_basic : Option Int := none
  eps_diluted : Option Int := none
deriving DecidableEq, Repr

/-- Balance sheet record of types/index.ts. -/
structure BalanceSheet where
  company_id : String
  year : Int
  currency : String
  cash_and_equivalents : Option Int := none
  accounts_receivable : Option Int := none
  inventory : Option Int := none
  other_current_assets : Option Int := none
  total_current_assets : Option Int := none
  ppe : Option Int := none
  intangible_assets : Option Int := none
  total_noncurrent_assets : Option Int := none
  total_assets : Option Int := none
  accounts_payable : Option Int := none
  short_term_debt : Option Int := none
  other_current_liabilities : Option Int := none
  total_current_liabilities : Option Int := none
  long_term_debt : Option Int := none
  total_noncurrent_liabilities : Option Int := none
  total_liabilities : Option Int := none
  share_capital : Option Int := none
  retained_earnings : Option Int := none
  other_equity : Option Int := none
  total_equity : Option Int := none
deriving DecidableEq, Repr

/-- Cash flow statement record of types/index.ts. -/
structure CashFlowStatement where
  company_id : String
  year : Int
  currency : String
  net_income : Option Int := none
  depreciation_amortization : Option Int := none
  working_capital_changes : Option Int := none
  cfo : Option Int := none
  capex : Option Int := none
  acquisitions : Option Int := none
  other_investing : Option Int := none
  cfi : Option Int := none
  debt_issued : Option Int := none
  debt_repaid : Option Int := none
  dividends_paid : Option Int := none
  share_buybacks : Option Int := none
  other_financing : Option Int := none
  cff : Option Int := none
  net_change_in_cash : Option Int := none
  ending_cash_balance : Option Int := none
deriving DecidableEq, Repr

/-- Financial ratio record of types/index.ts. -/
structure FinancialRatios where
  company_id : String
  year : Int
  current_ratio : Option Int := none
  quick_ratio : Option Int := none
  debt_to_equity : Option Int := none
  interest_coverage : Option Int := none
  gross_margin : Option Int := none
  net_margin : Option Int := none
  roa : Option Int := none
  roe : Option Int := none
  cfo_to_net_income : Option Int := none
  inventory_turnover : Option Int := none
  receivables_days : Option Int := none
deriving DecidableEq, Repr

/-- Combined financial data for one pair of company and year:
`interface FinancialData` of types/index.ts. -/
structure FinancialData where
  income : IncomeStatement
  balance : BalanceSheet
  cashflow : CashFlowStatement
  features : FinancialRatios
deriving DecidableEq, Repr

/-- Trend series for one company: `interface TrendsData` of types/index.ts. -/
structure TrendsData where
  income_trends : List IncomeStatement
  balance_trends : List BalanceSheet
  ratio_trends : List FinancialRatios
deriving DecidableEq, Repr

/-- A quality-assurance finding: `interface QAFinding` of types/index.ts. -/
structure QAFinding where
  company_id : String
  year : Int
  rule_id : String
  rule_name : String
  status : String
  severity : String
  details : String
  timestamp : String
deriving DecidableEq, Repr

/-- The single shared application snapshot: `interface AppState` of
types/index.ts. -/
structure AppState where
  isDataLoaded : Bool
  companies : List Company
  selectedCompany : Option Company
  availableYears : List Int
  selectedYear : Option Int
  financialData : Option FinancialData
  trendsData : Option TrendsData
  qaFindings : List QAFinding
  isLoading : Bool
  error : Option String
deriving DecidableEq, Repr

/-- The `initialState` constant of AppContext.tsx. -/
def initialState : AppState :=
  { isDataLoaded := false
    companies := []
    selectedCompany := none
    availableYears := []
    selectedYear := none
    financialData := none
    trendsData := none
    qaFindings := []
    isLoading := false
    error := none }

/-! ## Transport Client (client/src/services/api.ts)

An HTTP response is its status information plus the result of
`response.json()`: `none` models a body that is not parsable JSON, in which
case the call to `response.json()` itself rejects. Each operation is a pure
function of the one response it consumes; the single-response signature
embeds the absence of retries and of caching at this layer. -/

/-- Failure of an api.ts operation as observed by its caller: either an
`Error` explicitly thrown with a message, or the rejection of
`response.json()` on a body that is not parsable JSON. -/
inductive ApiError where
  | thrown (msg : String)
  | jsonParse
deriving DecidableEq, Repr

/-- JavaScript evaluation of `v || fallback` for a string field `v` that may
be absent: `undefined` and the empty string are falsy. -/
def orFallback (v : Option String) (fallback : String) : String :=
  match v with
  | some s => if s = "" then fallback else s
  | none => fallback

/-- An HTTP response as consumed by api.ts: `ok` and `status` from the fetch
response, and the parsed JSON body (`none` when the body is unparsable, in
which case `response.json()` rejects). -/
structure HttpResponse (β : Type) where
  ok : Bool
  status : Int
  body : Option β
deriving DecidableEq, Repr

/-- Parsed JSON body of the upload endpoint: `{message?, warning?, filename}`
on success, with an `error` field present on failure bodies. -/
structure UploadBody where
  message : Option String := none
  warning : Option String := none
  filename : String
  error : Option String := none
deriving DecidableEq, Repr

/-- Parsed JSON body of the companies endpoint: `{companies}` on success,
with an `error` field present on failure bodies. -/
structure CompaniesBody where
  companies : List Company := []
  error : Option String := none
deriving DecidableEq, Repr

/-- Transcription of `api.uploadFile`: a status that is neither ok nor 202
throws `new Error(error.error || 'Failed to upload file')` after parsing the
body (the parse rejection itself propagating when the body is unparsable);
otherwise the parsed body is returned. -/
def uploadFile (r : HttpResponse UploadBody) : Except ApiError UploadBody :=
  if ¬ r.ok ∧ r.status ≠ 202 then
    match r.body with
    | none => Except.error ApiError.jsonParse
    | some b => Except.error (ApiError.thrown (orFallback b.error "Failed to upload file"))
  else
    match r.body with
    | none => Except.error ApiError.jsonParse
    | some b => Except.ok b

/-- Transcription of `api.getCompanies`: a non-ok status throws
`new Error(error.error || 'Failed to fetch companies')` after parsing the
body (the parse rejection itself propagating when the body is unparsable);
otherwise the `companies` field of the parsed body is returned. -/
def getCompanies (r : HttpResponse CompaniesBody) : Except ApiError (List Company) :=
  if ¬ r.ok then
    match r.body with
    | none => Except.error ApiError.jsonParse
    | some b => Except.error (ApiError.thrown (orFallback b.error "Failed to fetch companies"))
  else
    match r.body with
    | none => Except.error ApiError.jsonParse
    | some b => Except.ok b.companies

/-! ## Selection/Fetch Coordinator (client/src/context/AppContext.tsx)

Each coordinator operation is an `async` function whose only suspension
points are its `await`ed network calls. Execution is single-threaded and
cooperative, so the code between two suspension points runs as one atomic
block; the machine below has one transition per atomic block. Network
outcomes are given by an oracle environment mapping each request to the
settlement of the corresponding transport call (`Except.error` carries the
message of the rejection as observed through `error.message`). -/

/-- Oracle environment fixing the settlement of every remote request. -/
structure ServerEnv where
  years : String → Except String (List Int)
  trends : String → Except String TrendsData
  financialData : String → Int → Except String FinancialData
  qaFindings : String → Int → Except String (List QAFinding)
  companiesList : Except String (List Company)

/-- JavaScript `Math.max(...years)` on a spread list. The empty case yields
negative infinity in JavaScript; it is unreachable in the coordinator, which
guards the call with `years.length > 0`. -/
def mathMax : List Int → Int
  | [] => 0
  | y :: ys => ys.foldl max y

/-- The first, synchronous `setState` patch of `selectCompany`: set loading,
clear the error, install the new company and reset every derived field. -/
def patchReset (c : Company) (s : AppState) : AppState :=
  { s with isLoading := true
           error := none
           selectedCompany := some c
           selectedYear := none
           availableYears := []
           financialData := none
           trendsData := none
           qaFindings := [] }

/-- A suspended continuation awaiting the settlement of its issued
requests: `phase1` awaits the years and trends pair of `selectCompany`,
`phase2` awaits the financial-data and findings pair of the automatic year
cascade inside `selectCompany`, and `yearFetch` awaits the same pair issued
by `selectYear` (whose catch branch reports a fixed message). -/
inductive Pending where
  | phase1 (c : Company)
  | phase2 (c : Company) (year : Int)
  | yearFetch (c : Company) (year : Int)
deriving DecidableEq, Repr

/-- Resumption of `selectCompany` after `Promise.all([getYears, getTrends])`
settles: on success apply the patch installing `availableYears` and
`trendsData` and clearing `isLoading`; then, still in the same atomic block,
if the year list is non-empty apply the cascade patch selecting
`Math.max(...years)` and setting `isLoading` again, and issue the
financial-data and findings pair. On rejection apply the catch patch with
the message of the rejection. -/
def resumePhase1 (env : ServerEnv) (c : Company) (s : AppState) :
    AppState × Option Pending :=
  match env.years c.id, env.trends c.id with
  | Except.ok years, Except.ok td =>
      let s2 := { s with availableYears := years
                         trendsData := some td
                         isLoading := false }
      if years.length > 0 then
        let mostRecentYear := mathMax years
        ({ s2 with isLoading := true, selectedYear := some mostRecentYear },
         some (Pending.phase2 c mostRecentYear))
      else
        (s2, none)
  | Except.error e, _ =>
      ({ s with error := some e, isLoading := false }, none)
  | _, Except.error e =>
      ({ s with error := some e, isLoading := false }, none)

/-- Resumption of the automatic year cascade of `selectCompany` after
`Promise.all([getFinancialData, getQAFindings])` settles: on success write
both results in one patch and clear `isLoading`; on rejection apply the
inner catch patch with the message of the rejection. -/
def resumePhase2 (env : ServerEnv) (c : Company) (y : Int) (s : AppState) :
    AppState × Option Pending :=
  match env.financialData c.id y, env.qaFindings c.id y with
  | Except.ok fd, Except.ok qa =>
      ({ s with financialData := some fd, qaFindings := qa, isLoading := false }, none)
  | Except.error e, _ =>
      ({ s with error := some e, isLoading := false }, none)
  | _, Except.error e =>
      ({ s with error := some e, isLoading := false }, none)

/-- Resumption of `selectYear` after its
`Promise.all([getFinancialData, getQAFindings])` settles; its catch branch
reports the fixed message of the source. -/
def resumeYearFetch (env : ServerEnv) (c : Company) (y : Int) (s : AppState) :
    AppState × Option Pending :=
  match env.financialData c.id y, env.qaFindings c.id y with
  | Except.ok fd, Except.ok qa =>
      ({ s with financialData := some fd, qaFindings := qa, isLoading := false }, none)
  | Except.error _, _ =>
      ({ s with error := some "Failed to load year data", isLoading := false }, none)
  | _, Except.error _ =>
      ({ s with error := some "Failed to load year data", isLoading := false }, none)

/-- Dispatch of a suspended continuation. -/
def resumePending (env : ServerEnv) (p : Pending) (s : AppState) :
    AppState × Option Pending :=
  match p with
  | Pending.phase1 c => resumePhase1 env c s
  | Pending.phase2 c y => resumePhase2 env c y s
  | Pending.yearFetch c y => resumeYearFetch env c y s

/-- The machine: the shared Store snapshot plus the queue of suspended
continuations whose requests are in flight. -/
structure MachineState where
  store : AppState
  pending : List Pending
deriving DecidableEq, Repr

/-- An event of a run: a user call entering the coordinator, or the
settlement of the requests awaited by the indexed pending continuation
(settlement order between distinct requests is unconstrained, so the
scheduler may resume any pending index). -/
inductive Event where
  | callSelectCompany (c : Company)
  | callSelectYear (y : Int)
  | resume (i : Nat)
deriving DecidableEq, Repr

/-- One atomic transition of the machine. A `callSelectCompany` applies the
reset patch and issues the years and trends pair in the same block; a
`callSelectYear` is a no-op when no company is selected, and otherwise
applies its loading patch and issues its pair; a `resume` runs the atomic
block of the indexed pending continuation. -/
def stepEvent (env : ServerEnv) (m : MachineState) : Event → MachineState
  | Event.callSelectCompany c =>
      { store := patchReset c m.store
        pending := m.pending ++ [Pending.phase1 c] }
  | Event.callSelectYear y =>
      match m.store.selectedCompany with
      | none => m
      | some c =>
          { store := { m.store with isLoading := true
                                    error := none
                                    selectedYear := some y }
            pending := m.pending ++ [Pending.yearFetch c y] }
  | Event.resume i =>
      match m.pending.get? i with
      | none => m
      | some p =>
          let r := resumePending env p m.store
          { store := r.1
            pending := m.pending.eraseIdx i ++ r.2.toList }

/-- Run of a whole event sequence. -/
def runEvents (env : ServerEnv) (evs : List Event) (m : MachineState) :
    MachineState :=
  evs.foldl (stepEvent env) m

/-- The observable Store snapshots of a run: the state at the start and
after every atomic block (between two consecutive blocks the coordinator is
suspended, which is exactly when other code can read the Store). -/
def traceStores (env : ServerEnv) (evs : List Event) (m : MachineState) :
    List AppState :=
  (List.scanl (stepEvent env) m evs).map MachineState.store

/-- Transcription of the mount-time `checkForData` probe of AppContext.tsx:
on a successful fetch of a non-empty company list, set `isDataLoaded` and
`companies`; otherwise (failure, or an empty list) leave the state alone. -/
def checkForData (o : Except String (List Company)) (s : AppState) : AppState :=
  match o with
  | Except.ok companies =>
      if companies.length > 0 then
        { s with isDataLoaded := true, companies := companies }
      else s
  | Except.error _ => s

/-- The synchronous opening patch of `loadCompanies`. -/
def loadCompaniesStart (s : AppState) : AppState :=
  { s with isLoading := true, error := none }

/-- The settlement patch of `loadCompanies`: on success install the list and
derive `isDataLoaded`; on failure set the fixed message of its catch. -/
def loadCompaniesSettle (o : Except String (List Company)) (s : AppState) : AppState :=
  match o with
  | Except.ok companies =>
      { s with companies := companies
               isDataLoaded := companies.length > 0
               isLoading := false }
  | Except.error _ =>
      { s with error := some "Failed to load companies", isLoading := false }

/-- JavaScript truthiness of an optional string field. -/
def truthy : Option String → Bool
  | none => false
  | some s => ¬ (s = "")

/-- Result of the coordinator `uploadFile` of AppContext.tsx: the final
Store snapshot together with whether the company-list reload
(`loadCompanies`) was invoked. -/
structure UploadRunResult where
  finalState : AppState
  reloaded : Bool
deriving DecidableEq, Repr

/-- Transcription of the coordinator `uploadFile`: set loading and clear the
error; on a response whose `warning` field is truthy, write the warning to
the error slot, clear `isLoading`, and return early; on a response with no
truthy warning, run `loadCompanies` (whose companies fetch settles as
`co`); on a rejected upload, write the message of the rejection to the
error slot and clear `isLoading`. -/
def uploadFileCoord (uo : Except String UploadBody)
    (co : Except String (List Company)) (s : AppState) : UploadRunResult :=
  let s1 := { s with isLoading := true, error := none }
  match uo with
  | Except.ok response =>
      if truthy response.warning then
        { finalState := { s1 with error := response.warning, isLoading := false }
          reloaded := false }
      else
        { finalState := loadCompaniesSettle co (loadCompaniesStart s1)
          reloaded := true }
  | Except.error msg =>
      { finalState := { s1 with error := some msg, isLoading := false }
        reloaded := false }

/-! ## Upload progress monitor (client/src/components/FileUpload.tsx)

The `onmessage` handler of the progress stream and the polling fallback
installed by the `onerror` handler. The fallback is modelled on a discrete
one-second timeline starting at the moment of the stream error: the 3-second
`setInterval` probe fires at every tick divisible by 3, the 120-second
`setTimeout` fires at tick 120 (the source registers it and never calls
`clearTimeout` on it), and the 2-second cleanup scheduled by a successful
probe fires two ticks after that probe. -/

/-- A parsed progress stream payload `{progress, status, completed}`. -/
structure ProgressPayload where
  progress : Int
  status : String
  completed : Bool
deriving DecidableEq, Repr

/-- Local component state of FileUpload touched by the stream handlers,
plus whether the `EventSource` handle is still open. -/
structure StreamState where
  isUploading : Bool
  progress : Int
  progressStatus : String
  message : String
  streamOpen : Bool
deriving DecidableEq, Repr

/-- Result of one `onmessage` invocation: the local component state, the
global Store snapshot, and whether the handler invoked `loadCompanies`. -/
structure StreamStepResult where
  ui : StreamState
  store : AppState
  reloadStarted : Bool
deriving DecidableEq, Repr

/-- Message set by the catch branch of the `onmessage` handler. -/
def parseErrorMessage : String := "❌ Error parsing progress data"

/-- Message set by the completion branch of the `onmessage` handler. -/
def uploadSuccessMessage : String := "✅ File uploaded and processed successfully"

/-- Transcription of the `onmessage` handler: an event whose payload parses
updates progress and status, and on `completed` closes the stream, sets the
success message and invokes `loadCompanies` (whose synchronous opening patch
is applied to the Store); an event whose payload does not parse
(`JSON.parse` throws) reaches the catch branch, which logs, closes the
stream, marks the upload not uploading and sets a local parse-error message,
leaving the Store untouched. The two-second cleanup scheduled by the
completion branch is outside this single-event function. -/
def onMessage (ev : Option ProgressPayload) (ui : StreamState) (store : AppState) :
    StreamStepResult :=
  match ev with
  | some data =>
      let ui1 := { ui with progress := data.progress, progressStatus := data.status }
      if data.completed then
        { ui := { ui1 with streamOpen := false, message := uploadSuccessMessage }
          store := loadCompaniesStart store
          reloadStarted := true }
      else
        { ui := ui1, store := store, reloadStarted := false }
  | none =>
      { ui := { ui with streamOpen := false, isUploading := false
                        message := parseErrorMessage }
        store := store
        reloadStarted := false }

/-- Message set by the 120-second timeout callback of the polling fallback. -/
def timeoutMessage : String := "❌ Processing timeout - please check if file was processed"

/-- Message set by a successful probe of the polling fallback. -/
def pollSuccessMessage : String := "✅ File processed successfully (progress tracking failed)"

/-- Local state of the polling fallback: the component fields, whether
`clearInterval` has been called on the probe interval, whether
`loadCompanies` has been invoked, and the tick at which the scheduled
cleanup will run. -/
structure PollState where
  isUploading : Bool
  progress : Int
  progressStatus : String
  message : String
  intervalCleared : Bool
  reloadStarted : Bool
  cleanupAt : Option Nat
deriving DecidableEq, Repr

/-- State at the moment the `onerror` handler installs the fallback: the
stream is closed, the status message announces the degraded mode, and both
timers are registered. -/
def pollStart (progress0 : Int) (message0 : String) : PollState :=
  { isUploading := true
    progress := progress0
    progressStatus := "Progress tracking failed, checking completion..."
    message := message0
    intervalCleared := false
    reloadStarted := false
    cleanupAt := none }

/-- One tick of the fallback timeline. `listNonEmpty t` tells whether the
companies probe issued at tick `t` observes a non-empty list (a probe whose
fetch fails is observed as empty: its catch only logs). The probe interval
fires at ticks divisible by 3 while not cleared; a successful probe clears
the interval, forces progress 100, sets the completed status and success
message, invokes `loadCompanies` and schedules the cleanup two ticks later.
The timeout callback fires at tick 120 unconditionally — the source never
cancels it — clearing the interval, marking not uploading and setting the
timeout message. The cleanup resets the transient progress fields. -/
def pollTick (listNonEmpty : Nat → Bool) (t : Nat) (s : PollState) : PollState :=
  let s1 :=
    if t % 3 = 0 ∧ ¬ s.intervalCleared then
      if listNonEmpty t then
        { s with intervalCleared := true
                 progress := 100
                 progressStatus := "Processing completed!"
                 message := pollSuccessMessage
                 reloadStarted := true
                 cleanupAt := some (t + 2) }
      else s
    else s
  let s2 :=
    if t = 120 then
      { s1 with intervalCleared := true
                isUploading := false
                message := timeoutMessage }
    else s1
  if s2.cleanupAt = some t then
    { s2 with isUploading := false, progress := 0, progressStatus := "" }
  else s2

/-- Run of the fallback timeline over ticks 1 up to `T`. -/
def pollRun (listNonEmpty : Nat → Bool) (T : Nat) (s : PollState) : PollState :=
  (List.range T).foldl (fun st i => pollTick listNonEmpty (i + 1) st) s

/-! ## Concrete inputs used by counterexamples and witnesses -/

/-- A first company. -/
def companyA : Company := { id := "A", name := "Alpha" }

/-- A second company. -/
def companyB : Company := { id := "B", name := "Beta" }

/-- A trend series with no entries. -/
def tdEmpty : TrendsData :=
  { income_trends := [], balance_trends := [], ratio_trends := [] }

/-- Financial data tagged with the pair of company and year it was fetched
for. -/
def fdFor (cid : String) (y : Int) : FinancialData :=
  { income := { company_id := cid, year := y, currency := "USD" }
    balance := { company_id := cid, year := y, currency := "USD" }
    cashflow := { company_id := cid, year := y, currency := "USD" }
    features := { company_id := cid, year := y } }

/-- A finding tagged with the pair of company and year it was fetched
for. -/
def qaFor (cid : String) (y : Int) : QAFinding :=
  { company_id := cid
    year := y
    rule_id := "R1"
    rule_name := "leverage check"
    status := "flag"
    severity := "High"
    details := "detail"
    timestamp := "t0" }

/-- Oracle in which company A has years 2019, 2022, 2021 (deliberately out
of order) and company B has no years. -/
def envDemo : ServerEnv :=
  { years := fun cid => if cid = "A" then Except.ok [2019, 2022, 2021] else Except.ok []
    trends := fun _ => Except.ok tdEmpty
    financialData := fun cid y => Except.ok (fdFor cid y)
    qaFindings := fun cid y => Except.ok [qaFor cid y]
    companiesList := Except.ok [companyA, companyB] }

/-- Oracle in which company A has year 2020 and company B has year 2021. -/
def envRace : ServerEnv :=
  { years := fun cid => if cid = "A" then Except.ok [2020] else Except.ok [2021]
    trends := fun _ => Except.ok tdEmpty
    financialData := fun cid y => Except.ok (fdFor cid y)
    qaFindings := fun cid y => Except.ok [qaFor cid y]
    companiesList := Except.ok [companyA, companyB] }

/-- A failed response whose body is not parsable JSON. -/
def respUnparsable : HttpResponse CompaniesBody :=
  { ok := false, status := 500, body := none }

/-- An upload response body carrying a non-fatal warning. -/
def warnBody : UploadBody :=
  { filename := "report.pdf", warning := some "Low OCR confidence" }

/-- Local stream state while the upload stream is active. -/
def uiActive : StreamState :=
  { isUploading := true
    progress := 20
    progressStatus := "Extracting tables"
    message := ""
    streamOpen := true }

/-! ## Helper lemmas -/

/-- A left fold of `max` yields the seed or an element of the list. -/
theorem foldl_max_mem (ys : List Int) (a : Int) :
    ys.foldl max a = a ∨ ys.foldl max a ∈ ys := by
  induction ys generalizing a with
  | nil => exact Or.inl rfl
  | cons y ys ih =>
      show ys.foldl max (max a y) = a ∨ ys.foldl max (max a y) ∈ y :: ys
      rcases ih (max a y) with h | h
      · rw [h]
        rcases max_choice a y with h2 | h2
        · exact Or.inl h2
        · exact Or.inr (by rw [h2]; exact List.mem_cons_self y ys)
      · exact Or.inr (List.mem_cons_of_mem y h)

/-- The seed bounds a left fold of `max` from below. -/
theorem le_foldl_max (ys : List Int) (a : Int) : a ≤ ys.foldl max a := by
  induction ys generalizing a with
  | nil => exact le_refl a
  | cons y ys ih =>
      show a ≤ ys.foldl max (max a y)
      exact le_trans (le_max_left a y) (ih (max a y))

/-- Every list element bounds a left fold of `max` from below. -/
theorem mem_le_foldl_max (ys : List Int) (a : Int) :
    ∀ z ∈ ys, z ≤ ys.foldl max a := by
  induction ys generalizing a with
  | nil => intro z hz; exact absurd hz (List.not_mem_nil z)
  | cons y ys ih =>
      intro z hz
      show z ≤ ys.foldl max (max a y)
      rcases List.mem_cons.mp hz with h | h
      · rw [h]
        exact le_trans (le_max_right a y) (le_foldl_max ys (max a y))
      · exact ih (max a y) z h

/-- On a non-empty list, `Math.max` yields an element of the list. -/
theorem mathMax_mem (ys : List Int) (h : ys ≠ []) : mathMax ys ∈ ys := by
  cases ys with
  | nil => exact absurd rfl h
  | cons y ys =>
      show ys.foldl max y ∈ y :: ys
      rcases foldl_max_mem ys y with h1 | h1
      · rw [h1]; exact List.mem_cons_self y ys
      · exact List.mem_cons_of_mem y h1

/-- On a non-empty list, `Math.max` bounds every element from above. -/
theorem le_mathMax (ys : List Int) : ∀ z ∈ ys, z ≤ mathMax ys := by
  intro z hz
  cases ys with
  | nil => exact absurd hz (List.not_mem_nil z)
  | cons y ys =>
      show z ≤ ys.foldl max y
      rcases List.mem_cons.mp hz with h | h
      · exact h ▸ le_foldl_max ys z
      · exact mem_le_foldl_max ys y z h

/-- Resuming the head of the pending queue runs its atomic block and
replaces it by its continuation, if any. -/
theorem stepEvent_resume_cons (env : ServerEnv) (s : AppState) (p : Pending)
    (ps : List Pending) :
    stepEvent env ⟨s, p :: ps⟩ (Event.resume 0) =
      ⟨(resumePending env p s).1, ps ++ (resumePending env p s).2.toList⟩ := rfl

/-- Value of the phase-1 resumption when both fetches succeed. -/
theorem resumePhase1_ok (env : ServerEnv) (c : Company) (s : AppState)
    (years : List Int) (td : TrendsData)
    (hy : env.years c.id = Except.ok years)
    (ht : env.trends c.id = Except.ok td) :
    resumePhase1 env c s =
      if years.length > 0 then
        ({ s with availableYears := years, trendsData := some td,
                  isLoading := true, selectedYear := some (mathMax years) },
         some (Pending.phase2 c (mathMax years)))
      else
        ({ s with availableYears := years, trendsData := some td,
                  isLoading := false }, none) := by
  unfold resumePhase1
  rw [hy, ht]

/-- Every settlement of the phase-2 pair clears `isLoading` and leaves no
outstanding continuation, on success and on failure alike. -/
theorem resumePhase2_settles (env : ServerEnv) (c : Company) (y : Int)
    (s : AppState) :
    (resumePhase2 env c y s).1.isLoading = false ∧
    (resumePhase2 env c y s).2 = none := by
  unfold resumePhase2
  cases hf : env.financialData c.id y with
  | ok fd =>
      cases hq : env.qaFindings c.id y with
      | ok qa => exact ⟨rfl, rfl⟩
      | error e => exact ⟨rfl, rfl⟩
  | error e =>
      cases hq : env.qaFindings c.id y with
      | ok qa => exact ⟨rfl, rfl⟩
      | error e2 => exact ⟨rfl, rfl⟩

/-! ## Claim theorems -/

/-- C2: every `selectCompany` call resets `selectedYear`, `availableYears`,
`financialData`, `trendsData` and `qaFindings` in the single synchronous
patch of its first atomic block, the same block that installs the new
company, sets `isLoading`, and only then issues the years-and-trends fetch;
no observable snapshot lies between the reset and the issuing of the
fetch. -/
theorem selectCompany_reset_before_fetch (env : ServerEnv) (m : MachineState)
    (c : Company) :
    (stepEvent env m (Event.callSelectCompany c)).store.selectedCompany = some c ∧
    (stepEvent env m (Event.callSelectCompany c)).store.selectedYear = none ∧
    (stepEvent env m (Event.callSelectCompany c)).store.availableYears = [] ∧
    (stepEvent env m (Event.callSelectCompany c)).store.financialData = none ∧
    (stepEvent env m (Event.callSelectCompany c)).store.trendsData = none ∧
    (stepEvent env m (Event.callSelectCompany c)).store.qaFindings = [] ∧
    (stepEvent env m (Event.callSelectCompany c)).store.isLoading = true ∧
    (stepEvent env m (Event.callSelectCompany c)).pending =
      m.pending ++ [Pending.phase1 c] :=
  ⟨rfl, rfl, rfl, rfl, rfl, rfl, rfl, rfl⟩

/-- C3: when the years fetch of `selectCompany` succeeds with a non-empty
list, the automatic cascade selects the numerically greatest year of the
list — an element of the list bounding every element, independent of array
order — and issues the phase-2 pair for it; when the list is empty, no year
is selected, `financialData` and `qaFindings` stay empty, and nothing
further is issued. -/
theorem selectCompany_year_cascade (env : ServerEnv) (c : Company)
    (s0 : AppState) (years : List Int) (td : TrendsData)
    (hy : env.years c.id = Except.ok years)
    (ht : env.trends c.id = Except.ok td) :
    (years ≠ [] →
      (resumePhase1 env c (patchReset c s0)).1.selectedYear = some (mathMax years) ∧
      mathMax years ∈ years ∧
      (∀ z ∈ years, z ≤ mathMax years) ∧
      (resumePhase1 env c (patchReset c s0)).2 =
        some (Pending.phase2 c (mathMax years))) ∧
    (years = [] →
      (resumePhase1 env c (patchReset c s0)).1.selectedYear = none ∧
      (resumePhase1 env c (patchReset c s0)).1.financialData = none ∧
      (resumePhase1 env c (patchReset c s0)).1.qaFindings = [] ∧
      (resumePhase1 env c (patchReset c s0)).2 = none) := by
  rw [resumePhase1_ok env c (patchReset c s0) years td hy ht]
  constructor
  · intro hne
    rw [if_pos (List.length_pos.mpr hne)]
    exact ⟨rfl, mathMax_mem years hne, le_mathMax years, rfl⟩
  · intro he
    subst he
    rw [if_neg (by simp)]
    exact ⟨rfl, rfl, rfl, rfl⟩

/-- C3 witness: company A of the demonstration oracle has the year list
2019, 2022, 2021, and the cascade selects 2022. -/
theorem selectCompany_year_cascade_witness :
    (resumePhase1 envDemo companyA (patchReset companyA initialState)).1.selectedYear =
      some 2022 ∧
    mathMax [2019, 2022, 2021] = 2022 := by
  have h := selectCompany_year_cascade envDemo companyA initialState
      [2019, 2022, 2021] tdEmpty rfl rfl
  have h1 := (h.1 (by decide)).1
  exact ⟨by rw [h1]; decide, by decide⟩

/-- C10: the mount-time probe mutates the Store exactly when its companies
fetch succeeds with a non-empty list, and then only sets `isDataLoaded` and
`companies`; on an empty list or on failure the whole snapshot, its error
slot included, is left untouched. -/
theorem checkForData_mutation (o : Except String (List Company)) (s : AppState) :
    (∀ companies, o = Except.ok companies → companies ≠ [] →
        checkForData o s = { s with isDataLoaded := true, companies := companies }) ∧
    (o = Except.ok [] → checkForData o s = s) ∧
    (∀ e, o = Except.error e → checkForData o s = s) := by
  refine ⟨?_, ?_, ?_⟩
  · intro companies ho hne
    subst ho
    have hred : checkForData (Except.ok companies) s =
        if companies.length > 0 then
          { s with isDataLoaded := true, companies := companies }
        else s := rfl
    rw [hred, if_pos (List.length_pos.mpr hne)]
  · intro ho; subst ho; rfl
  · intro e ho; subst ho; rfl

/-- C10 witness: a successful non-empty probe on the initial state loads the
list, and a failed probe leaves the initial state, error slot included,
untouched. -/
theorem checkForData_mutation_witness :
    checkForData (Except.ok [companyA]) initialState =
      { initialState with isDataLoaded := true, companies := [companyA] } ∧
    checkForData (Except.error "service unavailable") initialState = initialState ∧
    (checkForData (Except.error "service unavailable") initialState).error = none := by
  have h1 := (checkForData_mutation (Except.ok [companyA]) initialState).1
      [companyA] rfl (List.cons_ne_nil _ _)
  have h2 := (checkForData_mutation (Except.error "service unavailable")
      initialState).2.2 "service unavailable" rfl
  exact ⟨h1, h2, by rw [h2]; rfl⟩

/-- C4: for a `selectCompany` step whose year list is non-empty, every
observable Store snapshot from the start of the step to the settlement of
the last outstanding request shows `isLoading` true — true right after the
opening block (years and trends in flight), still true right after the
phase-1 resumption (whose cascade re-arms it in the same atomic block while
issuing the financial-data pair) — and `isLoading` is false only once the
final settlement has run, whether that settlement succeeds or fails. -/
theorem selectCompany_isLoading_span (env : ServerEnv) (c : Company)
    (s0 : AppState) (years : List Int) (td : TrendsData)
    (hy : env.years c.id = Except.ok years)
    (ht : env.trends c.id = Except.ok td)
    (hne : years ≠ []) :
    (stepEvent env ⟨s0, []⟩ (Event.callSelectCompany c)).store.isLoading = true ∧
    (stepEvent env ⟨s0, []⟩ (Event.callSelectCompany c)).pending = [Pending.phase1 c] ∧
    (runEvents env [Event.callSelectCompany c, Event.resume 0]
        ⟨s0, []⟩).store.isLoading = true ∧
    (runEvents env [Event.callSelectCompany c, Event.resume 0]
        ⟨s0, []⟩).pending = [Pending.phase2 c (mathMax years)] ∧
    (runEvents env [Event.callSelectCompany c, Event.resume 0, Event.resume 0]
        ⟨s0, []⟩).store.isLoading = false ∧
    (runEvents env [Event.callSelectCompany c, Event.resume 0, Event.resume 0]
        ⟨s0, []⟩).pending = [] := by
  have hlen : years.length > 0 := List.length_pos.mpr hne
  have e1 : stepEvent env ⟨s0, []⟩ (Event.callSelectCompany c) =
      ⟨patchReset c s0, [Pending.phase1 c]⟩ := rfl
  have e2 : stepEvent env ⟨patchReset c s0, [Pending.phase1 c]⟩ (Event.resume 0) =
      ⟨{ patchReset c s0 with
           availableYears := years, trendsData := some td,
           isLoading := true, selectedYear := some (mathMax years) },
        [Pending.phase2 c (mathMax years)]⟩ := by
    rw [stepEvent_resume_cons]
    show (⟨(resumePhase1 env c (patchReset c s0)).1,
           [] ++ (resumePhase1 env c (patchReset c s0)).2.toList⟩ : MachineState) = _
    rw [resumePhase1_ok env c (patchReset c s0) years td hy ht, if_pos hlen]
    rfl
  have e3 : stepEvent env
      ⟨{ patchReset c s0 with
           availableYears := years, trendsData := some td,
           isLoading := true, selectedYear := some (mathMax years) },
        [Pending.phase2 c (mathMax years)]⟩ (Event.resume 0) =
      ⟨(resumePhase2 env c (mathMax years)
          { patchReset c s0 with
              availableYears := years, trendsData := some td,
              isLoading := true, selectedYear := some (mathMax years) }).1,
        [] ++ (resumePhase2 env c (mathMax years)
          { patchReset c s0 with
              availableYears := years, trendsData := some td,
              isLoading := true, selectedYear := some (mathMax years) }).2.toList⟩ :=
    stepEvent_resume_cons env _ _ _
  have hp2 := resumePhase2_settles env c (mathMax years)
      { patchReset c s0 with
          availableYears := years, trendsData := some td,
          isLoading := true, selectedYear := some (mathMax years) }
  refine ⟨by rw [e1]; rfl, by rw [e1], ?_, ?_, ?_, ?_⟩
  · show (stepEvent env (stepEvent env ⟨s0, []⟩ (Event.callSelectCompany c))
        (Event.resume 0)).store.isLoading = true
    rw [e1, e2]
  · show (stepEvent env (stepEvent env ⟨s0, []⟩ (Event.callSelectCompany c))
        (Event.resume 0)).pending = [Pending.phase2 c (mathMax years)]
    rw [e1, e2]
  · show (stepEvent env (stepEvent env (stepEvent env ⟨s0, []⟩
        (Event.callSelectCompany c)) (Event.resume 0))
        (Event.resume 0)).store.isLoading = false
    rw [e1, e2, e3]
    exact hp2.1
  · show (stepEvent env (stepEvent env (stepEvent env ⟨s0, []⟩
        (Event.callSelectCompany c)) (Event.resume 0))
        (Event.resume 0)).pending = []
    rw [e1, e2, e3, hp2.2]
    rfl

/-- C4 witness: the step for company A of the demonstration oracle keeps
`isLoading` true at both suspension points and clears it exactly at the
final settlement. -/
theorem selectCompany_isLoading_span_witness :
    (runEvents envDemo [Event.callSelectCompany companyA, Event.resume 0]
        ⟨initialState, []⟩).store.isLoading = true ∧
    (runEvents envDemo
        [Event.callSelectCompany companyA, Event.resume 0, Event.resume 0]
        ⟨initialState, []⟩).store.isLoading = false := by
  have h := selectCompany_isLoading_span envDemo companyA initialState
      [2019, 2022, 2021] tdEmpty rfl rfl (by decide)
  exact ⟨h.2.2.1, h.2.2.2.2.1⟩

/-- C1: the coordinator has no cancellation or generation token, so the
claimed property fails — in the run below, company A is selected, company B
is selected before the requests of A settle, and the suspended phase-2
resumption of A settles last: the final quiescent snapshot pairs the
selection of B with the financial data and findings fetched for A. -/
theorem race_stale_patch_overwrites :
    (runEvents envRace
        [Event.callSelectCompany companyA, Event.callSelectCompany companyB,
         Event.resume 0, Event.resume 0, Event.resume 1, Event.resume 0]
        ⟨initialState, []⟩).store.selectedCompany = some companyB ∧
    (runEvents envRace
        [Event.callSelectCompany companyA, Event.callSelectCompany companyB,
         Event.resume 0, Event.resume 0, Event.resume 1, Event.resume 0]
        ⟨initialState, []⟩).store.financialData = some (fdFor "A" 2020) ∧
    (runEvents envRace
        [Event.callSelectCompany companyA, Event.callSelectCompany companyB,
         Event.resume 0, Event.resume 0, Event.resume 1, Event.resume 0]
        ⟨initialState, []⟩).store.qaFindings = [qaFor "A" 2020] ∧
    (runEvents envRace
        [Event.callSelectCompany companyA, Event.callSelectCompany companyB,
         Event.resume 0, Event.resume 0, Event.resume 1, Event.resume 0]
        ⟨initialState, []⟩).pending = [] ∧
    (fdFor "A" 2020).income.company_id ≠ companyB.id := by
  refine ⟨rfl, rfl, rfl, rfl, by decide⟩

/-- C5: the same missing generation token lets `selectedYear` escape
`availableYears` — in the run below, company A (years 2019, 2022, 2021) is
selected, then company B (no years); the phase-1 resumption of A lands after
the reset of B and selects 2022, and the phase-1 resumption of B then
installs the empty year list without touching `selectedYear`, leaving a
quiescent snapshot whose `selectedYear` is 2022 while `availableYears` is
empty. -/
theorem selectedYear_escapes_availableYears :
    (runEvents envDemo
        [Event.callSelectCompany companyA, Event.callSelectCompany companyB,
         Event.resume 0, Event.resume 0]
        ⟨initialState, []⟩).store.selectedYear = some 2022 ∧
    (runEvents envDemo
        [Event.callSelectCompany companyA, Event.callSelectCompany companyB,
         Event.resume 0, Event.resume 0]
        ⟨initialState, []⟩).store.availableYears = [] ∧
    ¬ (∀ y, (runEvents envDemo
        [Event.callSelectCompany companyA, Event.callSelectCompany companyB,
         Event.resume 0, Event.resume 0]
        ⟨initialState, []⟩).store.selectedYear = some y →
          y ∈ (runEvents envDemo
        [Event.callSelectCompany companyA, Event.callSelectCompany companyB,
         Event.resume 0, Event.resume 0]
        ⟨initialState, []⟩).store.availableYears) := by
  refine ⟨rfl, rfl, fun h => ?_⟩
  exact List.not_mem_nil 2022 (h 2022 rfl)

set_option maxRecDepth 100000 in
/-- C6: in the polling fallback, a probe that observes a non-empty company
list (here from tick 3 on) forces progress 100, the completed status and the
success message and clears the interval, and a run in which no probe ever
succeeds ends at tick 120 with the timeout message and polling stopped; but
the 120-second timeout callback is never cancelled, so the completed run
still has its success message overwritten by the timeout failure message at
tick 120, refuting the claim that no timeout failure is reported after
completion. -/
theorem poll_timeout_not_cancelled :
    ((pollRun (fun t => decide (3 ≤ t)) 4 (pollStart 5 "")).progress = 100 ∧
     (pollRun (fun t => decide (3 ≤ t)) 4 (pollStart 5 "")).message =
       pollSuccessMessage ∧
     (pollRun (fun t => decide (3 ≤ t)) 4 (pollStart 5 "")).intervalCleared = true ∧
     (pollRun (fun t => decide (3 ≤ t)) 4 (pollStart 5 "")).reloadStarted = true) ∧
    ((pollRun (fun t => decide (3 ≤ t)) 120 (pollStart 5 "")).message =
       timeoutMessage ∧
     (pollRun (fun t => decide (3 ≤ t)) 120 (pollStart 5 "")).message ≠
       pollSuccessMessage) ∧
    ((pollRun (fun _ => false) 120 (pollStart 5 "")).message = timeoutMessage ∧
     (pollRun (fun _ => false) 120 (pollStart 5 "")).isUploading = false ∧
     (pollRun (fun _ => false) 120 (pollStart 5 "")).intervalCleared = true ∧
     (pollRun (fun _ => false) 120 (pollStart 5 "")).progress = 5) := by
  refine ⟨⟨rfl, rfl, rfl, rfl⟩, ⟨rfl, by decide⟩, ⟨rfl, rfl, rfl, rfl⟩⟩

/-- C7 counterexample: a malformed progress event does not leave the stream
open with the user-visible upload state untouched — the catch branch of
`onmessage` closes the stream, marks the upload not uploading and sets a
user-visible parse-error message. -/
theorem malformed_event_closes_stream :
    (onMessage none uiActive initialState).ui.streamOpen = false ∧
    (onMessage none uiActive initialState).ui.message = parseErrorMessage ∧
    (onMessage none uiActive initialState).ui.isUploading = false ∧
    ¬ ((onMessage none uiActive initialState).ui.streamOpen = true ∧
       (onMessage none uiActive initialState).ui.message = uiActive.message) := by
  refine ⟨rfl, rfl, rfl, fun h => ?_⟩
  exact absurd h.1 (by decide)

/-- C7 amended: a malformed progress event drops the payload (progress and
status are not updated from it), closes the stream, marks the upload not
uploading and sets a local parse-error message, while the global Store — its
error slot included — is left exactly unchanged; a well-formed non-final
event updates progress and status, keeps the stream open and also leaves the
Store unchanged. -/
theorem stream_event_handling (ui : StreamState) (store : AppState)
    (data : ProgressPayload) :
    (onMessage none ui store).store = store ∧
    (onMessage none ui store).ui.streamOpen = false ∧
    (onMessage none ui store).ui.isUploading = false ∧
    (onMessage none ui store).ui.message = parseErrorMessage ∧
    (onMessage none ui store).ui.progress = ui.progress ∧
    (onMessage none ui store).ui.progressStatus = ui.progressStatus ∧
    (onMessage none ui store).reloadStarted = false ∧
    (data.completed = false →
      onMessage (some data) ui store =
        { ui := { ui with progress := data.progress, progressStatus := data.status }
          store := store
          reloadStarted := false }) := by
  refine ⟨rfl, rfl, rfl, rfl, rfl, rfl, rfl, fun h => ?_⟩
  show (let ui1 := { ui with progress := data.progress, progressStatus := data.status }
        if data.completed then
          { ui := { ui1 with streamOpen := false, message := uploadSuccessMessage }
            store := loadCompaniesStart store
            reloadStarted := true }
        else
          ({ ui := ui1, store := store, reloadStarted := false } : StreamStepResult)) = _
  rw [h]
  rfl

/-- C7 amended witness: a malformed event at an active stream leaves the
initial Store untouched, and the well-formed event with progress 55 updates
the local fields only. -/
theorem stream_event_handling_witness :
    (onMessage none uiActive initialState).store = initialState ∧
    onMessage (some { progress := 55, status := "Running QA rules", completed := false })
        uiActive initialState =
      { ui := { uiActive with progress := 55, progressStatus := "Running QA rules" }
        store := initialState
        reloadStarted := false } := by
  have h := stream_event_handling uiActive initialState
      { progress := 55, status := "Running QA rules", completed := false }
  exact ⟨h.1, h.2.2.2.2.2.2.2 rfl⟩

/-- C8 counterexample: on a failed response whose body is not parsable JSON,
`getCompanies` does not surface the generic fallback message — the rejection
of `response.json()` itself propagates instead. -/
theorem getCompanies_unparsable_counterexample :
    getCompanies respUnparsable = Except.error ApiError.jsonParse ∧
    getCompanies respUnparsable ≠
      Except.error (ApiError.thrown "Failed to fetch companies") := by
  refine ⟨rfl, fun h => ?_⟩
  rw [show getCompanies respUnparsable = Except.error ApiError.jsonParse from rfl] at h
  injection h with h2
  exact ApiError.noConfusion h2

/-- C8 amended: each operation throws exactly on its non-success condition
provided the body parses — the message being the `error` field of the body
when present and non-empty and the generic fallback of the operation
otherwise — while an unparsable body propagates the parse rejection itself
(on success and failure statuses alike); on success with a parsable body the
parsed body, or its relevant field, is returned unchanged, the operation
consuming exactly one response (no retry, no caching). -/
theorem transport_error_policy (ru : HttpResponse UploadBody)
    (rc : HttpResponse CompaniesBody) :
    ((¬ ru.ok ∧ ru.status ≠ 202) → ∀ b, ru.body = some b →
        uploadFile ru =
          Except.error (ApiError.thrown (orFallback b.error "Failed to upload file"))) ∧
    ((ru.ok ∨ ru.status = 202) → ∀ b, ru.body = some b →
        uploadFile ru = Except.ok b) ∧
    (ru.body = none → uploadFile ru = Except.error ApiError.jsonParse) ∧
    (¬ rc.ok → ∀ b, rc.body = some b →
        getCompanies rc =
          Except.error (ApiError.thrown (orFallback b.error "Failed to fetch companies"))) ∧
    (rc.ok → ∀ b, rc.body = some b → getCompanies rc = Except.ok b.companies) ∧
    (rc.body = none → getCompanies rc = Except.error ApiError.jsonParse) := by
  refine ⟨?_, ?_, ?_, ?_, ?_, ?_⟩
  · intro hcond b hb
    unfold uploadFile
    rw [if_pos hcond, hb]
  · intro hcond b hb
    have hnc : ¬ (¬ ru.ok ∧ ru.status ≠ 202) := by
      rcases hcond with h | h
      · exact fun hc => hc.1 h
      · exact fun hc => hc.2 h
    unfold uploadFile
    rw [if_neg hnc, hb]
  · intro hb
    unfold uploadFile
    by_cases hcond : ¬ ru.ok ∧ ru.status ≠ 202
    · rw [if_pos hcond, hb]
    · rw [if_neg hcond, hb]
  · intro hcond b hb
    unfold getCompanies
    rw [if_pos hcond, hb]
  · intro hcond b hb
    unfold getCompanies
    rw [if_neg (not_not_intro hcond), hb]
  · intro hb
    unfold getCompanies
    by_cases hcond : ¬ rc.ok
    · rw [if_pos hcond, hb]
    · rw [if_neg hcond, hb]

/-- C8 amended witness: a 500 upload response with a parsable error body
surfaces that message verbatim, and an ok companies response returns its
list field. -/
theorem transport_error_policy_witness :
    uploadFile { ok := false, status := 500,
                 body := some { filename := "report.pdf", error := some "bad pdf" } } =
      Except.error (ApiError.thrown "bad pdf") ∧
    getCompanies { ok := true, status := 200,
                   body := some { companies := [companyA] } } =
      Except.ok [companyA] := by
  have h := transport_error_policy
      { ok := false, status := 500,
        body := some { filename := "report.pdf", error := some "bad pdf" } }
      { ok := true, status := 200, body := some { companies := [companyA] } }
  have h1 := h.1 ⟨by decide, by decide⟩ _ rfl
  have h2 := h.2.2.2.2.1 rfl _ rfl
  exact ⟨h1.trans (by rfl), h2⟩

/-- C9 counterexample: on an upload response carrying a warning, the
coordinator returns early — the warning reaches the error slot and
`isLoading` clears, but the company-list reload does not occur, refuting the
claim that the reload still follows. -/
theorem upload_warning_skips_reload :
    (uploadFileCoord (Except.ok warnBody) (Except.ok [companyA])
        initialState).reloaded = false ∧
    (uploadFileCoord (Except.ok warnBody) (Except.ok [companyA])
        initialState).finalState.error = some "Low OCR confidence" ∧
    (uploadFileCoord (Except.ok warnBody) (Except.ok [companyA])
        initialState).finalState.isLoading = false :=
  ⟨rfl, rfl, rfl⟩

/-- C9 amended: a successful upload whose response carries a truthy warning
writes the warning to the error slot, clears `isLoading` and returns early
without reloading the company list; a successful upload without a truthy
warning runs the company-list reload; a failed upload writes the failure
message to the error slot, clears `isLoading` and attempts no reload. -/
theorem uploadFileCoord_behavior (uo : Except String UploadBody)
    (co : Except String (List Company)) (s : AppState) :
    (∀ b, uo = Except.ok b → truthy b.warning = true →
        uploadFileCoord uo co s =
          { finalState := { s with error := b.warning, isLoading := false }
            reloaded := false }) ∧
    (∀ b, uo = Except.ok b → truthy b.warning = false →
        uploadFileCoord uo co s =
          { finalState := loadCompaniesSettle co
              (loadCompaniesStart { s with isLoading := true, error := none })
            reloaded := true }) ∧
    (∀ msg, uo = Except.error msg →
        uploadFileCoord uo co s =
          { finalState := { s with error := some msg, isLoading := false }
            reloaded := false }) := by
  refine ⟨?_, ?_, ?_⟩
  · intro b ho hw
    subst ho
    show (if truthy b.warning then _ else _) = _
    rw [hw]
    rfl
  · intro b ho hw
    subst ho
    show (if truthy b.warning then _ else _) = _
    rw [hw]
    rfl
  · intro msg ho
    subst ho
    rfl

/-- C9 amended witness: a warning response ends with the warning in the
error slot and no reload, and a warning-free success runs the reload against
the fetched list. -/
theorem uploadFileCoord_behavior_witness :
    uploadFileCoord (Except.ok warnBody) (Except.ok [companyA]) initialState =
      { finalState := { initialState with
          error := some "Low OCR confidence", isLoading := false }
        reloaded := false } ∧
    (uploadFileCoord (Except.ok { filename := "report.pdf" })
        (Except.ok [companyA]) initialState).reloaded = true := by
  have h1 := (uploadFileCoord_behavior (Except.ok warnBody)
      (Except.ok [companyA]) initialState).1 warnBody rfl (by decide)
  have h2 := (uploadFileCoord_behavior
      (Except.ok ({ filename := "report.pdf" } : UploadBody))
      (Except.ok [companyA]) initialState).2.1 _ rfl (by decide)
  exact ⟨h1.trans (by rfl), by rw [h2]⟩

end FSA
